import Mathlib

/-!
Verification of the BreachGuard core analysis logic (src/app.py):
the structural password-strength heuristic, the entropy / crack-time
estimator, and the k-anonymity breach-lookup pipeline.

Passwords are Python `str` values, modelled as Lean `String`s; `len`
is the character count, matching Python.  Python's `re` character
classes `[a-z]`, `[A-Z]` are ASCII; `\d` is modelled as the ASCII
digits `0-9`.
-/

namespace BreachGuard

/-- `re.search(r"[a-z]", password)` as a Bool. -/
def hasLower (password : String) : Bool :=
  password.data.any fun c => 'a' ≤ c && c ≤ 'z'

/-- `re.search(r"[A-Z]", password)` as a Bool. -/
def hasUpper (password : String) : Bool :=
  password.data.any fun c => 'A' ≤ c && c ≤ 'Z'

/-- `re.search(r"\d", password)` as a Bool (ASCII digits). -/
def hasDigit (password : String) : Bool :=
  password.data.any fun c => '0' ≤ c && c ≤ '9'

/-- The fixed symbol alphabet of the strength check, i.e. the character
class `[ !@#$%^&*()_+\-=\[\]{};':"\\|,.<>\/?]` of `check_password_strength`
(space, braces, apostrophe, double quote and backslash written via
`Char.ofNat` codes 32, 123, 125, 39, 34, 92). -/
def symbolChars : List Char :=
  [Char.ofNat 32, '!', '@', '#', '$', '%', '^', '&', '*', '(', ')', '_',
   '+', '-', '=', '[', ']', Char.ofNat 123, Char.ofNat 125, ';',
   Char.ofNat 39, ':', Char.ofNat 34, Char.ofNat 92, '|', ',', '.',
   '<', '>', '/', '?']

/-- `re.search(r"[ !@#$%^&*()_+\-=\[\]{};':"\\|,.<>\/?]", password)`. -/
def hasSymbol (password : String) : Bool :=
  password.data.any fun c => symbolChars.contains c

/-- `re.search(r"[^a-zA-Z\d]", password)`: any character that is not an
ASCII letter or digit (the symbol class used by the entropy pool). -/
def hasOther (password : String) : Bool :=
  password.data.any fun c =>
    !(('a' ≤ c && c ≤ 'z') || ('A' ≤ c && c ≤ 'Z') || ('0' ≤ c && c ≤ '9'))

/-- The character-pool accumulation of `calculate_entropy` (the four
sequential `pool_size +=` statements). -/
def pool_size (password : String) : Nat :=
  let p : Nat := 0
  let p := if hasLower password then p + 26 else p
  let p := if hasUpper password then p + 26 else p
  let p := if hasDigit password then p + 10 else p
  let p := if hasOther password then p + 32 else p
  p

/-- `calculate_entropy`: `0` for an empty pool, otherwise
`len(password) * math.log2(pool_size)`. -/
noncomputable def calculate_entropy (password : String) : ℝ :=
  if pool_size password = 0 then 0
  else (password.length : ℝ) * Real.logb 2 (pool_size password)

/-- The assumed attacker throughput (`guesses_per_sec` in
`estimate_crack_time`): 100 billion guesses per second. -/
def guesses_per_sec : ℕ := 100000000000

/-- Python `int(x)` on a float: truncation toward zero. -/
noncomputable def pyTrunc (x : ℝ) : ℤ :=
  if 0 ≤ x then ⌊x⌋ else -⌊-x⌋

/-- `estimate_crack_time`: `seconds = 2 ** entropy / guesses_per_sec`,
then the ascending threshold ladder of the source. -/
noncomputable def estimate_crack_time (entropy : ℝ) : String :=
  let seconds : ℝ := (2 : ℝ) ^ entropy / (guesses_per_sec : ℝ)
  if seconds < 60 then "Instantly"
  else if seconds < 3600 then toString (pyTrunc (seconds / 60)) ++ " minutes"
  else if seconds < 86400 then toString (pyTrunc (seconds / 3600)) ++ " hours"
  else if seconds < 31536000 then toString (pyTrunc (seconds / 86400)) ++ " days"
  else if seconds < 3153600000 then toString (pyTrunc (seconds / 31536000)) ++ " years"
  else "Centuries"

/-- The result dictionary of `check_password_strength`. -/
structure StrengthResult where
  score : Nat
  feedback : List String
  crack_time : String
  deriving Repr, DecidableEq

/-- `check_password_strength`: the sequential score / feedback
accumulation of the source, one `let` rebinding per mutation.  The
length check adds 0 / 1 / 2 points (with feedback only in the short
case); each complexity check adds one point or appends its advisory;
the final score is `min(5, score - 1)` when `score > 1`, else `0`. -/
noncomputable def check_password_strength (password : String) : StrengthResult :=
  let score : Nat := 0
  let feedback : List String := []
  -- Length Check
  let score :=
    if password.length < 8 then score
    else if 12 ≤ password.length then score + 2
    else score + 1
  let feedback :=
    if password.length < 8 then feedback ++ ["Too short (min 8 chars)"] else feedback
  -- Complexity Checks
  let score := if hasLower password then score + 1 else score
  let feedback := if hasLower password then feedback else feedback ++ ["Missing lowercase"]
  let score := if hasUpper password then score + 1 else score
  let feedback := if hasUpper password then feedback else feedback ++ ["Missing uppercase"]
  let score := if hasDigit password then score + 1 else score
  let feedback := if hasDigit password then feedback else feedback ++ ["Missing numbers"]
  let score := if hasSymbol password then score + 1 else score
  let feedback := if hasSymbol password then feedback else feedback ++ ["Missing symbols"]
  -- Normalize score to max 5
  let final_score := if score > 1 then min 5 (score - 1) else 0
  let entropy := calculate_entropy password
  let crack_time := estimate_crack_time entropy
  { score := final_score, feedback := feedback, crack_time := crack_time }

/-! ### SHA-1 (modelling `hashlib.sha1` over the UTF-8 bytes) -/

/-- UTF-8 encoding of one code point, as a list of byte values. -/
def utf8EncodeChar (c : Char) : List Nat :=
  let n := c.toNat
  if n < 128 then [n]
  else if n < 2048 then [192 + n / 64, 128 + n % 64]
  else if n < 65536 then [224 + n / 4096, 128 + n / 64 % 64, 128 + n % 64]
  else [240 + n / 262144, 128 + n / 4096 % 64, 128 + n / 64 % 64, 128 + n % 64]

/-- `password.encode('utf-8')` as a list of byte values. -/
def utf8Encode (s : String) : List Nat :=
  s.data.foldr (fun c acc => utf8EncodeChar c ++ acc) []

/-- 32-bit left rotation on `Nat` (inputs reduced mod `2 ^ 32`). -/
def rotl32 (x k : Nat) : Nat :=
  (x % 2 ^ 32) * 2 ^ k % 2 ^ 32 + x % 2 ^ 32 / 2 ^ (32 - k)

/-- Big-endian bytes of `n`, `k` bytes wide. -/
def beBytes (k n : Nat) : List Nat :=
  (List.range k).map fun i => n / 2 ^ (8 * (k - 1 - i)) % 256

/-- SHA-1 padding: append `0x80`, zero bytes to 56 mod 64, then the
64-bit big-endian bit length. -/
def sha1Pad (msg : List Nat) : List Nat :=
  let L := msg.length
  let zeros := (56 + 64 - (L + 1) % 64) % 64
  msg ++ [128] ++ List.replicate zeros 0 ++ beBytes 8 (L * 8)

/-- Split into 64-byte chunks (the padded message length is always a
multiple of 64). -/
def chunks64 (l : List Nat) : List (List Nat) :=
  (List.range (l.length / 64)).map fun i => (l.drop (64 * i)).take 64

/-- The sixteen 32-bit big-endian words of a 64-byte chunk. -/
def wordsOfChunk (chunk : List Nat) : List Nat :=
  (List.range 16).map fun i =>
    chunk.getD (4 * i) 0 * 2 ^ 24 + chunk.getD (4 * i + 1) 0 * 2 ^ 16 +
      chunk.getD (4 * i + 2) 0 * 2 ^ 8 + chunk.getD (4 * i + 3) 0

/-- Extend 16 schedule words to 80. -/
def extendWords (ws : List Nat) : List Nat :=
  (List.range 64).foldl
    (fun ws j =>
      ws ++ [rotl32 (ws.getD (j + 13) 0 ^^^ ws.getD (j + 8) 0 ^^^
                     ws.getD (j + 2) 0 ^^^ ws.getD j 0) 1])
    ws

/-- Round constant. -/
def sha1K (i : Nat) : Nat :=
  if i < 20 then 1518500249
  else if i < 40 then 1859775393
  else if i < 60 then 2400959708
  else 3395469782

/-- Round function. -/
def sha1F (i b c d : Nat) : Nat :=
  if i < 20 then b &&& c ||| ((2 ^ 32 - 1) ^^^ b) &&& d
  else if i < 40 then b ^^^ c ^^^ d
  else if i < 60 then b &&& c ||| b &&& d ||| c &&& d
  else b ^^^ c ^^^ d

/-- One SHA-1 compression step over a 64-byte chunk. -/
def sha1Compress (h : Nat × Nat × Nat × Nat × Nat) (chunk : List Nat) :
    Nat × Nat × Nat × Nat × Nat :=
  let ws := extendWords (wordsOfChunk chunk)
  let (h0, h1, h2, h3, h4) := h
  let (a, b, c, d, e) :=
    (List.range 80).foldl
      (fun st i =>
        let (a, b, c, d, e) := st
        let temp := (rotl32 a 5 + sha1F i b c d + e + sha1K i + ws.getD i 0) % 2 ^ 32
        (temp, a, rotl32 b 30, c, d))
      (h0, h1, h2, h3, h4)
  ((h0 + a) % 2 ^ 32, (h1 + b) % 2 ^ 32, (h2 + c) % 2 ^ 32,
   (h3 + d) % 2 ^ 32, (h4 + e) % 2 ^ 32)

/-- Uppercase hexadecimal digit. -/
def hexDigitChar (n : Nat) : Char :=
  ['0', '1', '2', '3', '4', '5', '6', '7', '8', '9',
   'A', 'B', 'C', 'D', 'E', 'F'].getD n '0'

/-- `n` as `k` uppercase hex characters. -/
def toHexFixed (n k : Nat) : String :=
  String.mk ((List.range k).map fun i => hexDigitChar (n / 16 ^ (k - 1 - i) % 16))

/-- `hashlib.sha1(password.encode('utf-8')).hexdigest().upper()`:
the 40-character uppercase hex SHA-1 digest. -/
def sha1HexUpper (password : String) : String :=
  let hs := (chunks64 (sha1Pad (utf8Encode password))).foldl sha1Compress
    (1732584193, 4023233417, 2562383102, 271733878, 3285377520)
  toHexFixed hs.1 8 ++ toHexFixed hs.2.1 8 ++ toHexFixed hs.2.2.1 8 ++
    toHexFixed hs.2.2.2.1 8 ++ toHexFixed hs.2.2.2.2 8

/-! ### Breach lookup (`request_pwned_data`, `get_password_leaks_count`,
`pwned_api_check`) and the `/analyze` route. -/

/-- Helper for `splitlines`: accumulates the current line (reversed). -/
def splitlinesAux : List Char → List Char → List String
  | [], acc => if acc.isEmpty then [] else [String.mk acc.reverse]
  | '\r' :: '\n' :: rest, acc => String.mk acc.reverse :: splitlinesAux rest []
  | '\r' :: rest, acc => String.mk acc.reverse :: splitlinesAux rest []
  | '\n' :: rest, acc => String.mk acc.reverse :: splitlinesAux rest []
  | c :: rest, acc => splitlinesAux rest (c :: acc)

/-- Python `str.splitlines()` restricted to the `\n`, `\r`, `\r\n`
terminators: each terminator ends a line, and text after the last
terminator forms a final line only when non-empty. -/
def splitlines (s : String) : List String :=
  splitlinesAux s.data []

/-- Helper for `pySplit`: accumulates the current field (reversed). -/
def pySplitAux (sep : Char) : List Char → List Char → List String
  | [], acc => [String.mk acc.reverse]
  | c :: rest, acc =>
      if c = sep then String.mk acc.reverse :: pySplitAux sep rest []
      else pySplitAux sep rest (c :: acc)

/-- Python `s.split(sep)` for a one-character separator: splits at every
occurrence, `"".split(sep) == ['']`. -/
def pySplit (s : String) (sep : Char) : List String :=
  pySplitAux sep s.data []

/-- Python slice `s[:n]`. -/
def pyTake (s : String) (n : Nat) : String :=
  String.mk (s.data.take n)

/-- Python slice `s[n:]`. -/
def pyDrop (s : String) (n : Nat) : String :=
  String.mk (s.data.drop n)

/-- Digits of a decimal numeral, most significant first. -/
def digitsToNat (l : List Char) : Nat :=
  l.foldl (fun acc c => acc * 10 + (c.toNat - 48)) 0

/-- Python `int(s)` as an `Option`: an optional sign followed by a
non-empty run of decimal digits parses, anything else raises
`ValueError` (`none`).  (Python's `int` additionally strips whitespace
and accepts digit-group underscores; the corpus counts never use
either.) -/
def pyIntOpt (s : String) : Option Int :=
  match s.data with
  | '-' :: rest =>
      if rest ≠ [] ∧ rest.all Char.isDigit then some (-(digitsToNat rest : Int)) else none
  | '+' :: rest =>
      if rest ≠ [] ∧ rest.all Char.isDigit then some ((digitsToNat rest : Int)) else none
  | l => if l ≠ [] ∧ l.all Char.isDigit then some ((digitsToNat l : Int)) else none

/-- Decidable equality for lookup outcomes. -/
instance : DecidableEq (Except String Int) := fun a b =>
  match a, b with
  | .ok a, .ok b =>
      if h : a = b then .isTrue (by rw [h]) else .isFalse (by simp [h])
  | .error a, .error b =>
      if h : a = b then .isTrue (by rw [h]) else .isFalse (by simp [h])
  | .ok _, .error _ => .isFalse (by simp)
  | .error _, .ok _ => .isFalse (by simp)

/-- The `for h, count in hashes` loop of `get_password_leaks_count`.
Each iterated line is `line.split(':')` then unpacked into exactly two
components — a line without exactly one colon raises `ValueError`
(`.error`), aborting the scan; `int(count)` is evaluated only on a
matching line and raises on a non-numeric count.  Falling off the loop
returns 0. -/
def leaksLoop (hash_to_check : String) : List String → Except String Int
  | [] => .ok 0
  | line :: rest =>
    match pySplit line ':' with
    | [h, count] =>
        if h = hash_to_check then
          match pyIntOpt count with
          | some n => .ok n
          | none => .error "ValueError: invalid literal for int() with base 10"
        else leaksLoop hash_to_check rest
    | _ => .error "ValueError: not enough values to unpack"

/-- `get_password_leaks_count(hashes, hash_to_check)`: iterates over
`hashes.text.splitlines()` (the argument here is the response text). -/
def get_password_leaks_count (hashes : String) (hash_to_check : String) :
    Except String Int :=
  leaksLoop hash_to_check (splitlines hashes)

/-- The behaviour of the network on the single outbound GET: either a
response with a status code and text body, or a raised
timeout/connection error. -/
inductive Transport where
  | response (status : Nat) (text : String)
  | netError
  deriving Repr, DecidableEq

/-- The URL built by `request_pwned_data`. -/
def pwned_url (query_char : String) : String :=
  "https://api.pwnedpasswords.com/range/" ++ query_char

/-- `request_pwned_data(query_char)`: a transport-level exception
propagates; a status other than 200 raises `RuntimeError`; otherwise
the response text is returned. -/
def request_pwned_data (query_char : String) (t : Transport) : Except String String :=
  match t with
  | .netError => .error ("requests exception for " ++ pwned_url query_char)
  | .response status text =>
      if status ≠ 200 then .error ("Error fetching: " ++ toString status)
      else .ok text

/-- The URL that `pwned_api_check` causes `request_pwned_data` to
request: the fixed range endpoint parameterized by the first five
characters of the uppercase SHA-1 hex digest. -/
def pwned_request_url (password : String) : String :=
  let sha1password := sha1HexUpper password
  let first5_char := pyTake sha1password 5
  pwned_url first5_char

/-- `pwned_api_check(password)`: hash, split 5/35, query, scan. -/
def pwned_api_check (password : String) (t : Transport) : Except String Int :=
  let sha1password := sha1HexUpper password
  let first5_char := pyTake sha1password 5
  let tail := pyDrop sha1password 5
  match request_pwned_data first5_char t with
  | .error e => .error e
  | .ok text => get_password_leaks_count text tail

/-- The JSON object returned by the `/analyze` route. -/
structure AnalysisReport where
  structure_ : StrengthResult
  breaches : Int
  deriving Repr, DecidableEq

/-- The `/analyze` route: the structural result is always computed;
any exception from `pwned_api_check` is caught and reported as the
sentinel breach count `-1`. -/
noncomputable def analyze (password : String) (t : Transport) : AnalysisReport :=
  let strength_data := check_password_strength password
  let breach_count : Int :=
    match pwned_api_check password t with
    | .ok n => n
    | .error _ => -1
  { structure_ := strength_data, breaches := breach_count }

/-! ### Spec-side definitions (from the claims' words, for comparison
with the source embedding). -/

/-- The five criteria of the spec, as satisfied flags in evaluation
order: length ≥ 8, lowercase, uppercase, digit, symbol. -/
def satisfiedCount (password : String) : Nat :=
  (if 8 ≤ password.length then 1 else 0) + (if hasLower password then 1 else 0) +
    (if hasUpper password then 1 else 0) + (if hasDigit password then 1 else 0) +
    (if hasSymbol password then 1 else 0)

/-- The feedback the spec prescribes: one fixed advisory per unmet
criterion, in evaluation order 1 → 5, nothing for satisfied criteria. -/
def expectedFeedback (password : String) : List String :=
  (if password.length < 8 then ["Too short (min 8 chars)"] else []) ++
    (if hasLower password then [] else ["Missing lowercase"]) ++
    (if hasUpper password then [] else ["Missing uppercase"]) ++
    (if hasDigit password then [] else ["Missing numbers"]) ++
    (if hasSymbol password then [] else ["Missing symbols"])

/-- The tiered-normalized scoring policy in the claim's words: the
length criterion contributes 0 / 1 / 2 points (length < 8, 8–11, ≥ 12),
each complexity check contributes one, and the final score is
`min(5, raw − 1)` when `raw > 1`, else 0. -/
def tieredScoreSpec (password : String) : Nat :=
  let raw :=
    (if password.length < 8 then 0
     else if 8 ≤ password.length ∧ password.length ≤ 11 then 1
     else 2) +
    (if hasLower password then 1 else 0) + (if hasUpper password then 1 else 0) +
    (if hasDigit password then 1 else 0) + (if hasSymbol password then 1 else 0)
  if raw > 1 then min 5 (raw - 1) else 0

/-- The entropy pool in the claim's words: the sum of 26, 26, 10 and 32
for the present character classes. -/
def pool_size_spec (password : String) : Nat :=
  (if hasLower password then 26 else 0) + (if hasUpper password then 26 else 0) +
    (if hasDigit password then 10 else 0) + (if hasOther password then 32 else 0)

/-- The crack-time label in the claim's words: ascending thresholds on
the seconds value, with the displayed unit value floored. -/
noncomputable def crack_label_spec (seconds : ℝ) : String :=
  if seconds < 60 then "Instantly"
  else if seconds < 3600 then toString ⌊seconds / 60⌋ ++ " minutes"
  else if seconds < 86400 then toString ⌊seconds / 3600⌋ ++ " hours"
  else if seconds < 31536000 then toString ⌊seconds / 86400⌋ ++ " days"
  else if seconds < 3153600000 then toString ⌊seconds / 31536000⌋ ++ " years"
  else "Centuries"

/-- A well-formed corpus line: `split(':')` yields exactly a suffix and
a non-empty all-digit count. -/
def wellFormedLine (line : String) : Bool :=
  match pySplit line ':' with
  | [_, count] => !count.data.isEmpty && count.data.all Char.isDigit
  | _ => false

/-- The suffix of a corpus line: the part before the first colon. -/
def lineSuffix (line : String) : String :=
  (pySplit line ':').headD ""

/-- The count of a well-formed corpus line, as an integer. -/
def lineCount (line : String) : Int :=
  (pyIntOpt ((pySplit line ':').getD 1 "")).getD 0

/-! ### Helper lemmas -/

set_option maxHeartbeats 1000000 in
/-- Closed form of the score field: the interleaved feedback mutations
do not affect it. -/
theorem cps_score (password : String) :
    (check_password_strength password).score =
      (let score : Nat :=
        if password.length < 8 then 0
        else if 12 ≤ password.length then 2 else 1
       let score := if hasLower password then score + 1 else score
       let score := if hasUpper password then score + 1 else score
       let score := if hasDigit password then score + 1 else score
       let score := if hasSymbol password then score + 1 else score
       if score > 1 then min 5 (score - 1) else 0) := rfl

set_option maxHeartbeats 1000000 in
/-- Closed form of the feedback field: the interleaved score mutations
do not affect it. -/
theorem cps_feedback (password : String) :
    (check_password_strength password).feedback =
      (let feedback : List String :=
        if password.length < 8 then [] ++ ["Too short (min 8 chars)"] else []
       let feedback := if hasLower password then feedback else feedback ++ ["Missing lowercase"]
       let feedback := if hasUpper password then feedback else feedback ++ ["Missing uppercase"]
       let feedback := if hasDigit password then feedback else feedback ++ ["Missing numbers"]
       let feedback := if hasSymbol password then feedback else feedback ++ ["Missing symbols"]
       feedback) := rfl

set_option maxHeartbeats 1000000 in
/-- The score of `check_password_strength` follows the
tiered-normalized policy. -/
theorem score_eq_tiered (password : String) :
    (check_password_strength password).score = tieredScoreSpec password := by
  rw [cps_score]
  simp only [tieredScoreSpec]
  split_ifs <;> omega

set_option maxHeartbeats 1000000 in
/-- The feedback of `check_password_strength` is exactly one fixed
advisory per unmet criterion, in evaluation order, and its length is
five minus the number of satisfied criteria. -/
theorem feedback_facts (password : String) :
    (check_password_strength password).feedback = expectedFeedback password ∧
    (check_password_strength password).feedback.length = 5 - satisfiedCount password := by
  rw [cps_feedback]
  simp only [expectedFeedback, satisfiedCount]
  split_ifs <;> simp_all <;> omega

/-- A well-formed line splits into exactly a suffix and a non-empty
all-digit count. -/
theorem wf_split (line : String) (h : wellFormedLine line = true) :
    ∃ a b, pySplit line ':' = [a, b] ∧ b.data ≠ [] ∧ ∀ c ∈ b.data, c.isDigit = true := by
  rcases hsp : pySplit line ':' with _ | ⟨a, _ | ⟨b, _ | ⟨c, rest⟩⟩⟩ <;>
    simp [wellFormedLine, hsp] at h
  exact ⟨a, b, rfl, by simpa using h.1, h.2⟩

/-- `int()` parses a non-empty all-digit string to its value. -/
theorem pyIntOpt_digits (s : String) (h1 : s.data ≠ [])
    (h2 : ∀ c ∈ s.data, c.isDigit = true) :
    pyIntOpt s = some ((digitsToNat s.data : Nat) : Int) := by
  unfold pyIntOpt
  cases hd : s.data with
  | nil => exact absurd hd h1
  | cons c rest =>
    rw [hd] at h2
    have hcd : c.isDigit = true := h2 c (by simp)
    have hrd : rest.all Char.isDigit = true := by
      rw [List.all_eq_true]
      intro x hx
      exact h2 x (by simp [hx])
    split
    · next heq =>
        rw [List.cons.injEq] at heq
        rw [heq.1] at hcd
        exact absurd hcd (by decide)
    · next heq =>
        rw [List.cons.injEq] at heq
        rw [heq.1] at hcd
        exact absurd hcd (by decide)
    · rw [if_pos ⟨List.cons_ne_nil _ _, by simp [List.all_cons, hcd, hrd]⟩]

/-- The count of a well-formed line is the value of its digit field. -/
theorem lineCount_eq (line a b : String) (hsp : pySplit line ':' = [a, b])
    (hb1 : b.data ≠ []) (hb2 : ∀ c ∈ b.data, c.isDigit = true) :
    lineCount line = ((digitsToNat b.data : Nat) : Int) := by
  simp [lineCount, hsp, pyIntOpt_digits b hb1 hb2]

/-- A scan over well-formed lines with no matching suffix returns 0. -/
theorem leaksLoop_no_match (tail : String) (lines : List String)
    (hwf : ∀ l ∈ lines, wellFormedLine l = true)
    (hnm : ∀ l ∈ lines, lineSuffix l ≠ tail) :
    leaksLoop tail lines = .ok 0 := by
  induction lines with
  | nil => rfl
  | cons line rest ih =>
    obtain ⟨a, b, hsp, hb1, hb2⟩ := wf_split line (hwf line (by simp))
    have hsuf : lineSuffix line = a := by simp [lineSuffix, hsp]
    have hne : a ≠ tail := hsuf ▸ hnm line (by simp)
    simp only [leaksLoop, hsp]
    rw [if_neg hne]
    exact ih (fun l hl => hwf l (by simp [hl])) (fun l hl => hnm l (by simp [hl]))

/-- A scan over well-formed lines returns the count of the first line
whose suffix matches. -/
theorem leaksLoop_match (tail line : String) (post : List String) :
    ∀ pre : List String,
      (∀ l ∈ pre ++ line :: post, wellFormedLine l = true) →
      lineSuffix line = tail →
      (∀ l ∈ pre, lineSuffix l ≠ tail) →
      leaksLoop tail (pre ++ line :: post) = .ok (lineCount line) := by
  intro pre
  induction pre with
  | nil =>
    intro hwf hm _
    obtain ⟨a, b, hsp, hb1, hb2⟩ := wf_split line (hwf line (by simp))
    have hsuf : lineSuffix line = a := by simp [lineSuffix, hsp]
    have ha : a = tail := hsuf ▸ hm
    rw [List.nil_append]
    simp only [leaksLoop, hsp]
    rw [if_pos ha, pyIntOpt_digits b hb1 hb2, lineCount_eq line a b hsp hb1 hb2]
  | cons p ps ih =>
    intro hwf hm hpre
    obtain ⟨c, d, hspp, _, _⟩ := wf_split p (hwf p (by simp))
    have hsufp : lineSuffix p = c := by simp [lineSuffix, hspp]
    have hne : c ≠ tail := hsufp ▸ hpre p (by simp)
    rw [List.cons_append]
    simp only [leaksLoop, hspp]
    rw [if_neg hne]
    exact ih (fun l hl => hwf l (by simp [hl])) hm (fun l hl => hpre l (by simp [hl]))

/-- Counts of well-formed lines are non-negative. -/
theorem lineCount_nonneg (line : String) (h : wellFormedLine line = true) :
    0 ≤ lineCount line := by
  obtain ⟨a, b, hsp, hb1, hb2⟩ := wf_split line h
  rw [lineCount_eq line a b hsp hb1 hb2]
  exact Int.natCast_nonneg _

/-! ### Claim theorems -/

/-- C1: for every password the structural analysis returns a score in
`[0, 5]` (`score` is a `Nat`, so only the upper bound is non-trivial),
and the feedback list holds exactly one fixed advisory string per unmet
criterion, in evaluation order 1 → 5, with no entry for a satisfied
criterion; hence its length is 5 minus the number of satisfied
criteria. -/
theorem C1_score_bounds_and_feedback (password : String) :
    (check_password_strength password).score ≤ 5 ∧
    (check_password_strength password).feedback = expectedFeedback password ∧
    (check_password_strength password).feedback.length = 5 - satisfiedCount password := by
  refine ⟨?_, (feedback_facts password).1, (feedback_facts password).2⟩
  rw [score_eq_tiered]
  simp only [tieredScoreSpec]
  split_ifs <;> omega

/-- C3: the implemented scoring policy is the tiered-normalized
variant (length tier 0 / 1 / 2 plus the four complexity points,
normalized by `min(5, raw − 1)` for `raw > 1`, else 0); in particular
every 10-character password containing all four character classes
scores 4. -/
theorem C3_tiered_normalized_policy :
    (∀ password : String,
      (check_password_strength password).score = tieredScoreSpec password) ∧
    ∀ password : String, password.length = 10 →
      hasLower password = true → hasUpper password = true →
      hasDigit password = true → hasSymbol password = true →
      (check_password_strength password).score = 4 := by
  refine ⟨fun password => score_eq_tiered password, ?_⟩
  intro password hlen hlo hup hdig hsym
  rw [score_eq_tiered]
  simp [tieredScoreSpec, hlen, hlo, hup, hdig, hsym]

/-- Witness for C3: `"aB3!defghi"` has 10 characters and all four
character classes, and its score is 4. -/
theorem C3_tiered_normalized_policy_witness :
    (check_password_strength "aB3!defghi").score = 4 :=
  C3_tiered_normalized_policy.2 "aB3!defghi" (by decide) (by decide) (by decide)
    (by decide) (by decide)

/-- C4: the entropy estimate is `length × log2(pool)` where the pool
is the sum of 26 / 26 / 10 / 32 over the present character classes
(symbols being any character outside ASCII letters and digits), and it
is 0 when the pool is empty. -/
theorem C4_entropy_formula (password : String) :
    pool_size password = pool_size_spec password ∧
    calculate_entropy password =
      (if pool_size_spec password = 0 then 0
       else (password.length : ℝ) * Real.logb 2 (pool_size_spec password)) := by
  have hp : pool_size password = pool_size_spec password := by
    simp only [pool_size, pool_size_spec]
    split_ifs <;> omega
  refine ⟨hp, ?_⟩
  unfold calculate_entropy
  rw [hp]

/-- C10: the strength criterion and the entropy pool use different
symbol classes: for the password `"aA1~zzzz"` the tilde is outside the
fixed symbol set (so the feedback reports Missing symbols) yet is a
non-alphanumeric character (so the entropy pool still gains the
32-symbol addend, 62 + 32 = 94). -/
theorem C10_symbol_class_divergence :
    hasSymbol "aA1~zzzz" = false ∧ hasOther "aA1~zzzz" = true ∧
    "Missing symbols" ∈ (check_password_strength "aA1~zzzz").feedback ∧
    pool_size "aA1~zzzz" = 62 + 32 := by
  refine ⟨by decide, by decide, ?_, by decide⟩
  have h : (check_password_strength "aA1~zzzz").feedback = ["Missing symbols"] := by decide
  rw [h]
  exact List.mem_singleton.mpr rfl

/-- C2: on a transport failure (network exception or non-2xx status)
the analysis reports the breach sentinel `-1`, which is distinct from a
breach count of 0, and the combined report still carries the structural
result. -/
theorem C2_lookup_failure_signal (password : String) (t : Transport)
    (ht : t = .netError ∨
      ∃ status text, t = .response status text ∧ (status < 200 ∨ 300 ≤ status)) :
    (analyze password t).breaches = -1 ∧ (analyze password t).breaches ≠ 0 ∧
    (analyze password t).structure_ = check_password_strength password := by
  rcases ht with h | ⟨status, text, h, hst⟩ <;> subst h
  · have hb : (analyze password .netError).breaches = -1 := rfl
    exact ⟨hb, by rw [hb]; decide, rfl⟩
  · have h200 : status ≠ 200 := by omega
    have hb : (analyze password (.response status text)).breaches = -1 := by
      simp [analyze, pwned_api_check, request_pwned_data, h200]
    exact ⟨hb, by rw [hb]; decide, rfl⟩

/-- Witness for C2: a concrete timed-out lookup for `"x"` reports `-1`
and keeps the structural result. -/
theorem C2_lookup_failure_signal_witness :
    (analyze "x" .netError).breaches = -1 ∧ (analyze "x" .netError).breaches ≠ 0 ∧
    (analyze "x" .netError).structure_ = check_password_strength "x" :=
  C2_lookup_failure_signal "x" .netError (Or.inl rfl)

/-- C5: the crack-time label equals the spec's threshold mapping of
`seconds = 2 ^ entropy / 10 ^ 11`, with the displayed unit value
floored (Python truncation agrees with flooring since seconds is
non-negative). -/
theorem C5_crack_time_thresholds (entropy : ℝ) :
    estimate_crack_time entropy =
      crack_label_spec ((2 : ℝ) ^ entropy / (10 : ℝ) ^ 11) := by
  have hg : ((guesses_per_sec : ℕ) : ℝ) = (10 : ℝ) ^ 11 := by
    norm_num [guesses_per_sec]
  have htr : ∀ x : ℝ, 0 ≤ x → pyTrunc x = ⌊x⌋ := by
    intro x hx
    unfold pyTrunc
    rw [if_pos hx]
  have hsec : (0 : ℝ) ≤ (2 : ℝ) ^ entropy / (10 : ℝ) ^ 11 := by positivity
  simp only [estimate_crack_time, crack_label_spec, hg]
  split_ifs <;>
    first
      | rfl
      | (congr 1
         rw [htr _ (by positivity)])

set_option maxRecDepth 10000 in
/-- C6 counterexample: the digest of `"password"` is NOT the spec's
39-character constant (the spec dropped the final `8`). -/
theorem C6_digest_counterexample :
    sha1HexUpper "password" ≠ "5BAA61E4C9B93F3F0682250B6CF8331B7EE68FD" := by
  decide

set_option maxRecDepth 10000 in
/-- C6 amended: the breach-lookup digest of `"password"` is the
40-character uppercase SHA-1 value `5BAA61E4C9B93F3F0682250B6CF8331B7EE68FD8`,
splitting into prefix `5BAA6` and 35-character suffix
`1E4C9B93F3F0682250B6CF8331B7EE68FD8` (the slices taken by
`pwned_api_check`). -/
theorem C6_digest_of_password :
    sha1HexUpper "password" = "5BAA61E4C9B93F3F0682250B6CF8331B7EE68FD8" ∧
    pyTake (sha1HexUpper "password") 5 = "5BAA6" ∧
    pyDrop (sha1HexUpper "password") 5 = "1E4C9B93F3F0682250B6CF8331B7EE68FD8" := by
  refine ⟨by decide, by decide, by decide⟩

/-- C9: the outbound request URL is the fixed range endpoint plus
exactly the first five characters of the uppercase SHA-1 digest, so
any two passwords whose digests share that 5-character prefix produce
the identical request. -/
theorem C9_k_anonymity_url :
    (∀ password : String,
      pwned_request_url password =
        "https://api.pwnedpasswords.com/range/" ++ pyTake (sha1HexUpper password) 5) ∧
    ∀ p1 p2 : String,
      pyTake (sha1HexUpper p1) 5 = pyTake (sha1HexUpper p2) 5 →
      pwned_request_url p1 = pwned_request_url p2 := by
  refine ⟨fun password => rfl, ?_⟩
  intro p1 p2 h
  simp only [pwned_request_url, pwned_url, h]

set_option maxRecDepth 10000 in
/-- Witness for C9: `"14818"` and `"18167"` are distinct passwords
whose SHA-1 digests share the prefix `0034D`, and their request URLs
coincide. -/
theorem C9_k_anonymity_url_witness :
    pyTake (sha1HexUpper "14818") 5 = pyTake (sha1HexUpper "18167") 5 ∧
    pwned_request_url "14818" = pwned_request_url "18167" :=
  ⟨by decide, C9_k_anonymity_url.2 "14818" "18167" (by decide)⟩

set_option maxRecDepth 10000 in
/-- C7 counterexample: the spec's mocked line uses the truncated
34-character suffix, which can never equal the local 35-character
suffix — for `"password"` the lookup over that response returns 0, not
9545824. -/
theorem C7_spec_example_counterexample :
    pwned_api_check "password"
        (.response 200 "1E4C9B93F3F0682250B6CF8331B7EE68FD:9545824") = .ok 0 ∧
    pwned_api_check "password"
        (.response 200 "1E4C9B93F3F0682250B6CF8331B7EE68FD:9545824") ≠ .ok 9545824 := by
  constructor <;> decide

set_option maxRecDepth 10000 in
/-- C7 amended: over a well-formed corpus response, the lookup returns
the (non-negative) count of the first line whose suffix equals the
local hash suffix, and 0 when no line matches; the concrete example
for `"password"` holds with the corrected 35-character suffix line
`1E4C9B93F3F0682250B6CF8331B7EE68FD8:9545824`. -/
theorem C7_lookup_match_semantics :
    (∀ hashes tail : String,
      (∀ line ∈ splitlines hashes, wellFormedLine line = true) →
      ((∀ line ∈ splitlines hashes, lineSuffix line ≠ tail) →
        get_password_leaks_count hashes tail = .ok 0) ∧
      ∀ pre line post, splitlines hashes = pre ++ line :: post →
        lineSuffix line = tail → (∀ l ∈ pre, lineSuffix l ≠ tail) →
        get_password_leaks_count hashes tail = .ok (lineCount line) ∧
          0 ≤ lineCount line) ∧
    pwned_api_check "password"
      (.response 200 "1E4C9B93F3F0682250B6CF8331B7EE68FD8:9545824") = .ok 9545824 := by
  constructor
  · intro hashes tail hwf
    constructor
    · intro hnm
      exact leaksLoop_no_match tail (splitlines hashes) hwf hnm
    · intro pre line post hsplit hm hpre
      have hwf' : ∀ l ∈ pre ++ line :: post, wellFormedLine l = true := hsplit ▸ hwf
      constructor
      · unfold get_password_leaks_count
        rw [hsplit]
        exact leaksLoop_match tail line post pre hwf' hm hpre
      · exact lineCount_nonneg line (hwf' line (by simp))
  · decide

set_option maxRecDepth 10000 in
/-- Witness for C7 (amended): the corrected single-line response
matched against the true suffix of `"password"` returns 9545824. -/
theorem C7_lookup_match_semantics_witness :
    get_password_leaks_count "1E4C9B93F3F0682250B6CF8331B7EE68FD8:9545824"
        "1E4C9B93F3F0682250B6CF8331B7EE68FD8" = .ok 9545824 := by
  have h := (C7_lookup_match_semantics.1
      "1E4C9B93F3F0682250B6CF8331B7EE68FD8:9545824"
      "1E4C9B93F3F0682250B6CF8331B7EE68FD8" (by decide)).2 []
    "1E4C9B93F3F0682250B6CF8331B7EE68FD8:9545824" [] (by decide) (by decide)
    (fun l hl => absurd hl (List.not_mem_nil l))
  have hl : lineCount "1E4C9B93F3F0682250B6CF8331B7EE68FD8:9545824" = 9545824 := by
    decide
  rw [hl] at h
  exact h.1

set_option maxRecDepth 10000 in
/-- C8 (claim right, code wrong): a response whose first line has no
colon aborts the whole scan with `ValueError` instead of being skipped
— the well-formed matching line after it is never reached. -/
theorem C8_malformed_line_aborts_scan :
    wellFormedLine "FOO" = false ∧
    lineSuffix "1E4C9B93F3F0682250B6CF8331B7EE68FD8:9545824" =
      "1E4C9B93F3F0682250B6CF8331B7EE68FD8" ∧
    get_password_leaks_count "FOO\r\n1E4C9B93F3F0682250B6CF8331B7EE68FD8:9545824"
        "1E4C9B93F3F0682250B6CF8331B7EE68FD8" =
      .error "ValueError: not enough values to unpack" := by
  refine ⟨by decide, by decide, by decide⟩

end BreachGuard
